import Mathlib

/-!
Shallow embedding of the Hyper bootloader's ultra-protocol loader
(src/loader/protocols/ultra.c, with the config lookup header under
src/unnamed/part_000), together with theorems checking the
natural-language specification against it.

Machine integers are modelled as Nat, with explicit reductions modulo
2^64 where 64-bit overflow matters.  Constants that live in repository
headers absent from src/ (constants.h, ultra_protocol.h) are modelled
from the spec and marked as such.
-/

namespace Hyper

/-- Size constant KB, from Conversions.h: 1024. -/
def KB : Nat := 1024

/-- Size constant MB, from Conversions.h: 1024 * KB. -/
def MB : Nat := 1024 * KB

/-- Size constant GB, from Conversions.h: 1024 * MB. -/
def GB : Nat := 1024 * MB

/-- Modelled from the spec: PAGE_SIZE lives in common/constants.h which is
not under src/; the spec speaks of 4 KiB granularity, so 4096. -/
def PAGE_SIZE : Nat := 4096

/-- Modelled from the spec: HUGE_PAGE_SIZE lives in common/constants.h which
is not under src/; x86 huge pages in a 4-level table are 2 MiB. -/
def HUGE_PAGE_SIZE : Nat := 2 * MB

/-- Modelled from the spec: HIGHER_HALF_BASE lives in common/constants.h
which is not under src/; the spec's glossary gives 0xFFFF_8000_0000_0000. -/
def HIGHER_HALF_BASE : Nat := 0xFFFF800000000000

/-- Modelled from the spec: DIRECT_MAP_BASE lives in common/constants.h
which is not under src/; the spec equates the direct-map window base with
the higher-half base (physical == virtual - DIRECT_MAP_BASE for a kernel
whose virtual range is HIGHER_HALF_BASE + physical_base). -/
def DIRECT_MAP_BASE : Nat := 0xFFFF800000000000

/-- Ceiling division, from CEILING_DIVIDE in the repository helpers. -/
def CEILING_DIVIDE (x y : Nat) : Nat := (x + y - 1) / y

/-! ### Ultra protocol memory types

Modelled from the spec: ultra_protocol.h is not under src/.  The spec only
fixes the ordering that matters (firmware-native types up to NVS, then a
gap, then loader-specific types starting at LOADER_RECLAIMABLE) and that
coerced entries become RESERVED. -/

/-- Modelled from the spec: firmware-native RESERVED memory type code. -/
def ULTRA_MEMORY_TYPE_RESERVED : Nat := 2

/-- Modelled from the spec: firmware-native NVS memory type code, the
largest firmware-native type. -/
def ULTRA_MEMORY_TYPE_NVS : Nat := 4

/-- Modelled from the spec: first loader-specific memory type code, above
the firmware-native range. -/
def ULTRA_MEMORY_TYPE_LOADER_RECLAIMABLE : Nat := 0xFFFF0001

/-- Modelled from the spec: loader-specific memory type for modules. -/
def ULTRA_MEMORY_TYPE_MODULE : Nat := 0xFFFF0002

/-- Modelled from the spec: loader-specific memory type for the kernel
stack. -/
def ULTRA_MEMORY_TYPE_KERNEL_STACK : Nat := 0xFFFF0003

/-! ### Attribute record types, from the spec's protocol table (section 6). -/

/-- Attribute type code PLATFORM_INFO = 1. -/
def ULTRA_ATTRIBUTE_PLATFORM_INFO : Nat := 1

/-- Attribute type code KERNEL_INFO = 2. -/
def ULTRA_ATTRIBUTE_KERNEL_INFO : Nat := 2

/-- Attribute type code MODULE_INFO = 3. -/
def ULTRA_ATTRIBUTE_MODULE_INFO : Nat := 3

/-- Attribute type code COMMAND_LINE = 4. -/
def ULTRA_ATTRIBUTE_COMMAND_LINE : Nat := 4

/-- Attribute type code FRAMEBUFFER_INFO = 5. -/
def ULTRA_ATTRIBUTE_FRAMEBUFFER_INFO : Nat := 5

/-- Attribute type code MEMORY_MAP = 6. -/
def ULTRA_ATTRIBUTE_MEMORY_MAP : Nat := 6

/-- Size of struct ultra_attribute_header: two u32 fields (spec section 6). -/
def sizeof_ultra_attribute_header : Nat := 8

/-- Size of struct ultra_memory_map_entry: 24 bytes (spec section 6). -/
def sizeof_ultra_memory_map_entry : Nat := 24

/-- Modelled from the spec: ultra_protocol.h is not under src/, so the exact
size of struct ultra_platform_info_attribute is a symbolic constant
(header, platform type, loader version, rsdp address, fixed-width name). -/
def sizeof_ultra_platform_info_attribute : Nat := 88

/-- Modelled from the spec: exact size of struct ultra_kernel_info_attribute
(header, bases, range length, partition data, fixed-width path). -/
def sizeof_ultra_kernel_info_attribute : Nat := 336

/-- Modelled from the spec: exact size of struct ultra_module_info_attribute
(header, fixed-width name, physical address, length). -/
def sizeof_ultra_module_info_attribute : Nat := 88

/-- Modelled from the spec: exact size of struct ultra_framebuffer_attribute
(header plus the framebuffer descriptor). -/
def sizeof_ultra_framebuffer_attribute : Nat := 40

/-- Modelled from the spec: struct ultra_memory_map_attribute is the header
followed by a flexible entry array, so its own size is the header's. -/
def sizeof_ultra_memory_map_attribute : Nat := 8

/-! ## C7: ultra_memory_map_entry_convert (ultra.c lines 272-285) -/

/-- Input memory-map entry as the loader's memory services report it. -/
structure memory_map_entry where
  physical_address : Nat
  size_in_bytes : Nat
  type : Nat
deriving DecidableEq

/-- Output protocol memory-map entry. -/
structure ultra_memory_map_entry where
  physical_address : Nat
  size_in_bytes : Nat
  type : Nat
deriving DecidableEq

/-- Translation of ultra_memory_map_entry_convert: copy address and size,
pass the type through when it is at most NVS or at least
LOADER_RECLAIMABLE, otherwise coerce to RESERVED. -/
def ultra_memory_map_entry_convert (entry : memory_map_entry) : ultra_memory_map_entry :=
  { physical_address := entry.physical_address
    size_in_bytes := entry.size_in_bytes
    type :=
      if entry.type ≤ ULTRA_MEMORY_TYPE_NVS ∨ ULTRA_MEMORY_TYPE_LOADER_RECLAIMABLE ≤ entry.type then
        entry.type
      else
        ULTRA_MEMORY_TYPE_RESERVED }

/-! ## C10: config lookup macros (src/unnamed/part_000 lines 311-329) -/

/-- Underlying typed lookup functions of the config API. -/
inductive cfg_lookup_fn where
  | get_bool
  | get_unsigned
  | get_signed
  | get_string
  | get_object
deriving DecidableEq

/-- Description of a call to one of the underscored lookup functions:
which function, at which scope offset, with which uniqueness flag and key.
The cfg pointer and the out pointer are passed through unchanged by every
macro, so they are not part of the call shape. -/
structure cfg_lookup_call where
  fn : cfg_lookup_fn
  offset : Nat
  must_be_unique : Bool
  key : String
deriving DecidableEq

/-- Call shape of _cfg_get_unsigned(cfg, offset, unique, key, out). -/
def underscore_cfg_get_unsigned (offset : Nat) (unique : Bool) (key : String) : cfg_lookup_call :=
  { fn := .get_unsigned, offset := offset, must_be_unique := unique, key := key }

/-- Call shape of _cfg_get_signed(cfg, offset, unique, key, out). -/
def underscore_cfg_get_signed (offset : Nat) (unique : Bool) (key : String) : cfg_lookup_call :=
  { fn := .get_signed, offset := offset, must_be_unique := unique, key := key }

/-- Macro cfg_get_unsigned(cfg, obj, key, out):
expands to _cfg_get_unsigned(cfg, obj->cfg_off, true, key, out). -/
def cfg_get_unsigned (obj_off : Nat) (key : String) : cfg_lookup_call :=
  underscore_cfg_get_unsigned obj_off true key

/-- Macro cfg_get_signed(cfg, obj, key, out):
expands to _cfg_get_signed(cfg, obj->cfg_off, true, key, out). -/
def cfg_get_signed (obj_off : Nat) (key : String) : cfg_lookup_call :=
  underscore_cfg_get_signed obj_off true key

/-- Macro cfg_get_global_unsigned(cfg, key, out): the source expands it to
_cfg_get_signed(cfg, 0, true, key, out). -/
def cfg_get_global_unsigned (key : String) : cfg_lookup_call :=
  underscore_cfg_get_signed 0 true key

/-- Macro cfg_get_global_signed(cfg, key, out): the source expands it to
_cfg_get_unsigned(cfg, 0, true, key, out). -/
def cfg_get_global_signed (key : String) : cfg_lookup_call :=
  underscore_cfg_get_unsigned 0 true key

/-! ## C1 and C2: build_attribute_array (ultra.c lines 310-423) -/

/-- Attribute-array spec fields of struct attribute_array_spec that decide
the layout of the attribute array: which optional records are present, the
command-line length and the module count. -/
structure attribute_array_spec where
  fb_present : Bool
  cmdline_present : Bool
  cmdline_size : Nat
  module_count : Nat
deriving DecidableEq

/-- Translation of ultra.c lines 319-326: when a command line is present,
its record length is the attribute header plus the string plus its null
terminator, rounded up to a multiple of 8; otherwise 0. -/
def cmdline_aligned_length (spec : attribute_array_spec) : Nat :=
  if spec.cmdline_present then
    let len := sizeof_ultra_attribute_header + (spec.cmdline_size + 1)
    let remainder := len % 8
    if remainder ≠ 0 then len + (8 - remainder) else len
  else
    0

/-- Translation of ultra.c lines 328-333: the static byte requirement of
the attribute array, excluding the memory-map entries. -/
def attribute_array_bytes_needed (spec : attribute_array_spec) : Nat :=
  8 +
  sizeof_ultra_platform_info_attribute +
  sizeof_ultra_kernel_info_attribute +
  spec.module_count * sizeof_ultra_module_info_attribute +
  cmdline_aligned_length spec +
  (if spec.fb_present then sizeof_ultra_framebuffer_attribute else 0)

/-- Abstract firmware memory services used by the allocation loop: the
current memory-map entry count as reported by copy_map(NULL, ...), the
critical byte allocator (returning the new firmware state and an address)
and free_bytes.  The firmware state type is abstract because every
allocation and free may change the memory map. -/
structure memory_services (σ : Type) where
  map_entry_count : σ → Nat
  allocate_critical_bytes : σ → Nat → σ × Nat
  free_bytes : σ → Nat → Nat → σ

/-- Allocator-facing actions performed by one iteration of the allocation
loop, in order. -/
inductive loader_action where
  | alloc_bytes (size : Nat)
  | memzero (address size : Nat)
  | free_bytes (address size : Nat)
deriving DecidableEq

/-- Data of a committed allocation-loop iteration: the attribute array
address, the allocation size, and the reserved memory-map entry count. -/
structure alloc_loop_commit where
  attribute_array_address : Nat
  bytes_for_this_allocation : Nat
  memory_map_reserved_size : Nat
deriving DecidableEq

/-- Translation of one iteration of the allocation loop of
build_attribute_array (ultra.c lines 339-355): re-query the entry count
and reserve one more, allocate the static bytes plus the reservation,
re-query, and commit (memzero and leave) when the reservation still
covers the map, otherwise free the allocation. -/
def build_attribute_array_alloc_step {σ : Type} (ms : memory_services σ)
    (bytes_needed : Nat) (s : σ) : σ × List loader_action × Option alloc_loop_commit :=
  let memory_map_reserved_size := ms.map_entry_count s + 1
  let bytes_for_this_allocation :=
    bytes_needed + memory_map_reserved_size * sizeof_ultra_memory_map_entry
  let alloc := ms.allocate_critical_bytes s bytes_for_this_allocation
  let memory_map_size_new := ms.map_entry_count alloc.1
  if memory_map_reserved_size ≥ memory_map_size_new then
    (alloc.1,
     [.alloc_bytes bytes_for_this_allocation, .memzero alloc.2 bytes_for_this_allocation],
     some ⟨alloc.2, bytes_for_this_allocation, memory_map_reserved_size⟩)
  else
    (ms.free_bytes alloc.1 alloc.2 bytes_for_this_allocation,
     [.alloc_bytes bytes_for_this_allocation, .free_bytes alloc.2 bytes_for_this_allocation],
     none)

/-- Fuel-bounded translation of the whole allocation loop: iterate the
step, accumulating the performed actions, until an iteration commits. -/
def build_attribute_array_alloc_loop {σ : Type} (ms : memory_services σ)
    (bytes_needed : Nat) :
    Nat → σ → List loader_action → σ × List loader_action × Option alloc_loop_commit
  | 0, s, acc => (s, acc, none)
  | fuel + 1, s, acc =>
    match build_attribute_array_alloc_step ms bytes_needed s with
    | (s1, acts, some c) => (s1, acc ++ acts, some c)
    | (s1, acts, none) => build_attribute_array_alloc_loop ms bytes_needed fuel s1 (acc ++ acts)

/-! ### C2: the attribute records written after the allocation loop -/

/-- Cursor state while build_attribute_array writes records: the byte
offset of attr_ptr from the array base, the running attribute_count, and
the records written so far as (type, size_in_bytes) pairs in write order. -/
structure attribute_writer where
  off : Nat
  attribute_count : Nat
  records : List (Nat × Nat)
deriving DecidableEq

/-- Translation of ultra.c lines 357-362: attr_ptr skips the 4-byte pad
and the 4-byte attribute_count, which starts at zero. -/
def attribute_writer_init : attribute_writer :=
  { off := 8, attribute_count := 0, records := [] }

/-- Writing a single attribute record: append the (type, size) pair,
advance attr_ptr by the given amount and bump attribute_count by one. -/
def write_attribute (w : attribute_writer) (ty sz adv : Nat) : attribute_writer :=
  { off := w.off + adv, attribute_count := w.attribute_count + 1, records := w.records ++ [(ty, sz)] }

/-- Translation of ultra.c lines 380-385: when the module count is
nonzero, the module records are copied in one memcpy and attribute_count
grows by the module count. -/
def write_module_attributes (w : attribute_writer) (module_count : Nat) : attribute_writer :=
  if module_count ≠ 0 then
    { off := w.off + module_count * sizeof_ultra_module_info_attribute,
      attribute_count := w.attribute_count + module_count,
      records := w.records ++
        List.replicate module_count
          (ULTRA_ATTRIBUTE_MODULE_INFO, sizeof_ultra_module_info_attribute) }
  else
    w

/-- Translation of the record-writing part of build_attribute_array
(ultra.c lines 357-422): platform info, kernel info, modules, optional
command line, optional framebuffer, and the memory map last, whose record
size covers the reserved entries. -/
def build_attribute_array_writes (spec : attribute_array_spec)
    (memory_map_reserved_size : Nat) : attribute_writer :=
  let w0 := attribute_writer_init
  let w1 := write_attribute w0 ULTRA_ATTRIBUTE_PLATFORM_INFO
    sizeof_ultra_platform_info_attribute sizeof_ultra_platform_info_attribute
  let w2 := write_attribute w1 ULTRA_ATTRIBUTE_KERNEL_INFO
    sizeof_ultra_kernel_info_attribute sizeof_ultra_kernel_info_attribute
  let w3 := write_module_attributes w2 spec.module_count
  let w4 :=
    if spec.cmdline_present then
      write_attribute w3 ULTRA_ATTRIBUTE_COMMAND_LINE
        (cmdline_aligned_length spec) (cmdline_aligned_length spec)
    else
      w3
  let w5 :=
    if spec.fb_present then
      write_attribute w4 ULTRA_ATTRIBUTE_FRAMEBUFFER_INFO
        sizeof_ultra_framebuffer_attribute sizeof_ultra_framebuffer_attribute
    else
      w4
  write_attribute w5 ULTRA_ATTRIBUTE_MEMORY_MAP
    (memory_map_reserved_size * sizeof_ultra_memory_map_entry + sizeof_ultra_memory_map_attribute)
    (sizeof_ultra_attribute_header + memory_map_reserved_size * sizeof_ultra_memory_map_entry)

/-- C1: every iteration of the allocation loop reserves the firmware entry
count plus one, allocates the static byte requirement plus the
reservation times the entry stride, commits (zeroing the allocation and
leaving the loop) exactly when the reservation is at least the re-queried
entry count, and otherwise frees the allocation and retries on the
remaining fuel. -/
theorem C1_alloc_loop_reserve_commit {σ : Type} (ms : memory_services σ)
    (spec : attribute_array_spec) (s : σ) (fuel : Nat) (acc : List loader_action) :
    (build_attribute_array_alloc_step ms (attribute_array_bytes_needed spec) s =
      let memory_map_reserved_size := ms.map_entry_count s + 1
      let bytes_for_this_allocation :=
        attribute_array_bytes_needed spec +
          memory_map_reserved_size * sizeof_ultra_memory_map_entry
      let alloc := ms.allocate_critical_bytes s bytes_for_this_allocation
      if ms.map_entry_count alloc.1 ≤ memory_map_reserved_size then
        (alloc.1,
         [.alloc_bytes bytes_for_this_allocation, .memzero alloc.2 bytes_for_this_allocation],
         some ⟨alloc.2, bytes_for_this_allocation, memory_map_reserved_size⟩)
      else
        (ms.free_bytes alloc.1 alloc.2 bytes_for_this_allocation,
         [.alloc_bytes bytes_for_this_allocation, .free_bytes alloc.2 bytes_for_this_allocation],
         none)) ∧
    ((build_attribute_array_alloc_step ms (attribute_array_bytes_needed spec) s).2.2.isSome ↔
      ms.map_entry_count
          (ms.allocate_critical_bytes s
            (attribute_array_bytes_needed spec +
              (ms.map_entry_count s + 1) * sizeof_ultra_memory_map_entry)).1 ≤
        ms.map_entry_count s + 1) ∧
    (build_attribute_array_alloc_loop ms (attribute_array_bytes_needed spec) (fuel + 1) s acc =
      match build_attribute_array_alloc_step ms (attribute_array_bytes_needed spec) s with
      | (s1, acts, some c) => (s1, acc ++ acts, some c)
      | (s1, acts, none) =>
        build_attribute_array_alloc_loop ms (attribute_array_bytes_needed spec) fuel s1
          (acc ++ acts)) := by
  refine ⟨?_, ?_, ?_⟩
  · unfold build_attribute_array_alloc_step
    simp only [ge_iff_le]
  · unfold build_attribute_array_alloc_step
    simp only [ge_iff_le]
    split <;> simp_all
  · rw [build_attribute_array_alloc_loop]

/-- C2: the records of the attribute array are written in the fixed order
platform info, kernel info, one record per module, the command line only
when present with its size a multiple of 8, the framebuffer only when
present, and the memory map last; the final attribute_count equals the
number of records written, which is 2 + module_count + one per present
optional record + 1. -/
theorem C2_attribute_records_order_and_count (spec : attribute_array_spec)
    (memory_map_reserved_size : Nat) :
    (build_attribute_array_writes spec memory_map_reserved_size).records =
      [(ULTRA_ATTRIBUTE_PLATFORM_INFO, sizeof_ultra_platform_info_attribute),
       (ULTRA_ATTRIBUTE_KERNEL_INFO, sizeof_ultra_kernel_info_attribute)] ++
      List.replicate spec.module_count
        (ULTRA_ATTRIBUTE_MODULE_INFO, sizeof_ultra_module_info_attribute) ++
      (if spec.cmdline_present then
        [(ULTRA_ATTRIBUTE_COMMAND_LINE, cmdline_aligned_length spec)]
      else
        []) ++
      (if spec.fb_present then
        [(ULTRA_ATTRIBUTE_FRAMEBUFFER_INFO, sizeof_ultra_framebuffer_attribute)]
      else
        []) ++
      [(ULTRA_ATTRIBUTE_MEMORY_MAP,
        memory_map_reserved_size * sizeof_ultra_memory_map_entry +
          sizeof_ultra_memory_map_attribute)] ∧
    (build_attribute_array_writes spec memory_map_reserved_size).attribute_count =
      (build_attribute_array_writes spec memory_map_reserved_size).records.length ∧
    (build_attribute_array_writes spec memory_map_reserved_size).attribute_count =
      2 + spec.module_count + (if spec.cmdline_present then 1 else 0) +
        (if spec.fb_present then 1 else 0) + 1 ∧
    cmdline_aligned_length spec % 8 = 0 ∧
    cmdline_aligned_length spec =
      (if spec.cmdline_present then
        8 * ((sizeof_ultra_attribute_header + (spec.cmdline_size + 1) + 7) / 8)
      else
        0) := by
  have hmod : write_module_attributes
      (write_attribute (write_attribute attribute_writer_init
        ULTRA_ATTRIBUTE_PLATFORM_INFO sizeof_ultra_platform_info_attribute
        sizeof_ultra_platform_info_attribute)
        ULTRA_ATTRIBUTE_KERNEL_INFO sizeof_ultra_kernel_info_attribute
        sizeof_ultra_kernel_info_attribute) spec.module_count =
      { off := attribute_writer_init.off + sizeof_ultra_platform_info_attribute +
          sizeof_ultra_kernel_info_attribute +
          spec.module_count * sizeof_ultra_module_info_attribute,
        attribute_count := 2 + spec.module_count,
        records :=
          [(ULTRA_ATTRIBUTE_PLATFORM_INFO, sizeof_ultra_platform_info_attribute),
           (ULTRA_ATTRIBUTE_KERNEL_INFO, sizeof_ultra_kernel_info_attribute)] ++
          List.replicate spec.module_count
            (ULTRA_ATTRIBUTE_MODULE_INFO, sizeof_ultra_module_info_attribute) } := by
    unfold write_module_attributes write_attribute
    rcases Nat.eq_zero_or_pos spec.module_count with h0 | h0
    · simp [h0, attribute_writer_init]
    · have : spec.module_count ≠ 0 := Nat.pos_iff_ne_zero.mp h0
      simp [this, attribute_writer_init]
  have halign : cmdline_aligned_length spec % 8 = 0 ∧
      cmdline_aligned_length spec =
        (if spec.cmdline_present then
          8 * ((sizeof_ultra_attribute_header + (spec.cmdline_size + 1) + 7) / 8)
        else
          0) := by
    unfold cmdline_aligned_length sizeof_ultra_attribute_header
    cases h : spec.cmdline_present
    · simp
    · simp only [if_true]
      constructor
      · split <;> omega
      · split <;> omega
  refine ⟨?_, ?_, ?_, halign.1, halign.2⟩ <;>
    · unfold build_attribute_array_writes
      dsimp only
      rw [hmod]
      cases hc : spec.cmdline_present <;> cases hf : spec.fb_present <;>
        simp [write_attribute, attribute_writer_init] <;> omega

/-! ## C4: set_video_mode (ultra.c lines 132-248) -/

/-- Video mode as enumerated by the video services. -/
structure video_mode where
  width : Nat
  height : Nat
  bpp : Nat
  id : Nat
deriving DecidableEq

/-- Native resolution reported by query_resolution. -/
structure resolution where
  width : Nat
  height : Nat
deriving DecidableEq

/-- Video mode constraint from the config. -/
inductive video_mode_constraint where
  | exactly
  | at_least
deriving DecidableEq

/-- Requested video mode after video_mode_from_value filled it in. -/
structure requested_video_mode where
  width : Nat
  height : Nat
  bpp : Nat
  constraint : video_mode_constraint
deriving DecidableEq

/-- Macro VM_EQUALS: same width, height and bpp. -/
def VM_EQUALS (l : video_mode) (r : requested_video_mode) : Bool :=
  (l.width == r.width) && (l.height == r.height) && (l.bpp == r.bpp)

/-- Macro VM_GREATER_OR_EQUAL: at least the requested width, height, bpp. -/
def VM_GREATER_OR_EQUAL (l : video_mode) (r : requested_video_mode) : Bool :=
  decide (l.width ≥ r.width) && decide (l.height ≥ r.height) && decide (l.bpp ≥ r.bpp)

/-- Macro VM_LESS_OR_EQUAL: within the native resolution, width and height
only. -/
def VM_LESS_OR_EQUAL (l : video_mode) (r : resolution) : Bool :=
  decide (l.width ≤ r.width) && decide (l.height ≤ r.height)

/-- Condition of the non-breaking branch of the selection loop: the mode
is at least the request and within the native resolution. -/
def vm_candidate (rm : requested_video_mode) (native : resolution) (m : video_mode) : Bool :=
  VM_GREATER_OR_EQUAL m rm && VM_LESS_OR_EQUAL m native

/-- Translation of the selection loop of set_video_mode (ultra.c lines
219-232).  The accumulator is picked_vm/did_pick.  With an exact
constraint the first exact match breaks out of the loop; independently of
the constraint, a candidate mode overwrites the accumulator. -/
def set_video_mode_pick_loop (rm : requested_video_mode) (native : resolution) :
    List video_mode → Option video_mode → Option video_mode
  | [], picked => picked
  | m :: rest, picked =>
    if rm.constraint = .exactly ∧ VM_EQUALS m rm then
      some m
    else
      set_video_mode_pick_loop rm native rest
        (if vm_candidate rm native m then some m else picked)

/-- The mode set_video_mode picks, none when did_pick stays false. -/
def set_video_mode_pick (rm : requested_video_mode) (native : resolution)
    (mode_list : List video_mode) : Option video_mode :=
  set_video_mode_pick_loop rm native mode_list none

/-- Outcome of set_video_mode after the loop: the oops at ultra.c lines
234-237 when nothing was picked, otherwise the picked mode. -/
inductive video_mode_outcome where
  | fatal_oops
  | picked (m : video_mode)
deriving DecidableEq

/-- Translation of the fatal check of set_video_mode. -/
def set_video_mode_outcome (rm : requested_video_mode) (native : resolution)
    (mode_list : List video_mode) : video_mode_outcome :=
  match set_video_mode_pick rm native mode_list with
  | none => .fatal_oops
  | some m => .picked m

/-- Helper lemma: with an at-least constraint the loop returns the last
candidate of the list, falling back to the accumulator. -/
theorem set_video_mode_pick_loop_at_least (rm : requested_video_mode) (native : resolution)
    (h : rm.constraint = .at_least) (modes : List video_mode) :
    ∀ picked, set_video_mode_pick_loop rm native modes picked =
      (modes.reverse.find? (vm_candidate rm native)).or picked := by
  induction modes with
  | nil => intro picked; simp [set_video_mode_pick_loop]
  | cons m rest ih =>
    intro picked
    rw [set_video_mode_pick_loop, if_neg (by simp [h]), ih]
    rw [List.reverse_cons, List.find?_append]
    cases hf : rest.reverse.find? (vm_candidate rm native) <;>
      cases hc : vm_candidate rm native m <;>
        simp [List.find?_cons, hc, hf, Option.or]

/-- Helper lemma: with an exact constraint the loop returns the first
exact match, else the last candidate, else the accumulator. -/
theorem set_video_mode_pick_loop_exactly (rm : requested_video_mode) (native : resolution)
    (h : rm.constraint = .exactly) (modes : List video_mode) :
    ∀ picked, set_video_mode_pick_loop rm native modes picked =
      ((modes.find? (fun m => VM_EQUALS m rm)).or
        ((modes.reverse.find? (vm_candidate rm native)).or picked)) := by
  induction modes with
  | nil => intro picked; simp [set_video_mode_pick_loop]
  | cons m rest ih =>
    intro picked
    cases he : VM_EQUALS m rm
    · rw [set_video_mode_pick_loop, if_neg (by simp [he]), ih]
      rw [List.reverse_cons, List.find?_append]
      cases hfe : rest.find? (fun x => VM_EQUALS x rm) <;>
        cases hf : rest.reverse.find? (vm_candidate rm native) <;>
          cases hc : vm_candidate rm native m <;>
            simp [List.find?_cons, hc, he, hfe, hf, Option.or]
    · rw [set_video_mode_pick_loop, if_pos (by simp [h, he])]
      simp [List.find?_cons, he, Option.or]

/-- Counterexample to C4 as stated: with constraint exactly requesting
1024x768x32, and only a 1920x1080x32 mode available at native 1920x1080,
no mode matches the exact constraint, yet the loader does not halt: the
at-least branch of the loop still runs and picks 1920x1080x32. -/
theorem C4_counterexample :
    set_video_mode_outcome ⟨1024, 768, 32, .exactly⟩ ⟨1920, 1080⟩ [⟨1920, 1080, 32, 7⟩] =
      .picked ⟨1920, 1080, 32, 7⟩ ∧
    VM_EQUALS ⟨1920, 1080, 32, 7⟩ ⟨1024, 768, 32, .exactly⟩ = false := by
  constructor
  · rfl
  · rfl

/-- C4 (amended): with constraint exactly, the first enumerated exact
match is picked; if no exact match exists, the loop still picks the last
enumerated mode that is at least the request (width, height, bpp) and at
most the native resolution (width, height); with constraint at-least the
last such mode is picked; the loader halts fatally exactly when this
yields nothing. -/
theorem C4_video_mode_selection (rm : requested_video_mode) (native : resolution)
    (modes : List video_mode) :
    set_video_mode_pick rm native modes =
      (match rm.constraint with
       | .at_least => modes.reverse.find? (vm_candidate rm native)
       | .exactly =>
         (modes.find? (fun m => VM_EQUALS m rm)).or
           (modes.reverse.find? (vm_candidate rm native))) ∧
    (set_video_mode_outcome rm native modes = .fatal_oops ↔
      set_video_mode_pick rm native modes = none) := by
  constructor
  · cases h : rm.constraint
    · rw [set_video_mode_pick, set_video_mode_pick_loop_exactly rm native h modes none]
      cases hfe : modes.find? (fun x => VM_EQUALS x rm) <;>
        cases hf : modes.reverse.find? (vm_candidate rm native) <;>
          simp [Option.or]
    · rw [set_video_mode_pick, set_video_mode_pick_loop_at_least rm native h modes none]
      cases hf : modes.reverse.find? (vm_candidate rm native) <;> simp [Option.or]
  · rw [set_video_mode_outcome]
    cases hp : set_video_mode_pick rm native modes <;> simp

/-! ## C5: build_page_table (ultra.c lines 425-458) -/

/-- Output of the ELF loader that build_page_table consumes. -/
structure binary_info where
  physical_base : Nat
  physical_ceiling : Nat
  virtual_base : Nat
  entrypoint_address : Nat
  bitness : Nat
  kernel_range_is_direct_map : Bool
deriving DecidableEq

/-- One mapping request issued to the virtual-memory layer, either with
huge pages or with 4 KiB pages. -/
inductive page_mapping where
  | huge_pages (virtual_address physical_address count : Nat)
  | standard_pages (virtual_address physical_address count : Nat)
deriving DecidableEq

/-- Result of build_page_table: the level count, the zeroed root, and the
mapping calls in issue order. -/
structure page_table_build where
  levels : Nat
  root_zeroed : Bool
  mappings : List page_mapping
deriving DecidableEq

/-- Translation of build_page_table: nothing for a non-64-bit kernel;
otherwise a 4-level table with the bottom 4 GiB identity-mapped with huge
pages, the same 4 GiB direct-mapped at DIRECT_MAP_BASE with huge pages,
then either a 4 KiB mapping of the kernel range (allocate-anywhere case)
or a huge-page mapping of the first 2 GiB at HIGHER_HALF_BASE. -/
def build_page_table (bi : binary_info) : Option page_table_build :=
  if bi.bitness ≠ 64 then
    none
  else
    some
      { levels := 4
        root_zeroed := true
        mappings :=
          [.huge_pages 0 0 ((4 * GB) / HUGE_PAGE_SIZE),
           .huge_pages DIRECT_MAP_BASE 0 ((4 * GB) / HUGE_PAGE_SIZE)] ++
          (if ¬bi.kernel_range_is_direct_map then
            [.standard_pages bi.virtual_base bi.physical_base
              (CEILING_DIVIDE (bi.physical_ceiling - bi.physical_base) PAGE_SIZE)]
          else
            [.huge_pages HIGHER_HALF_BASE 0 ((2 * GB) / HUGE_PAGE_SIZE)]) }

/-- Counterexample to C5 as stated: for a 64-bit kernel with
kernel_range_is_direct_map true, the code issues a third mapping call
(the first 2 GiB huge-page-mapped at HIGHER_HALF_BASE) rather than only
the identity and direct maps. -/
theorem C5_counterexample :
    build_page_table ⟨0x100000, 0x200000, 0xFFFF800000100000, 0xFFFF800000100000, 64, true⟩ =
      some
        { levels := 4
          root_zeroed := true
          mappings :=
            [.huge_pages 0 0 ((4 * GB) / HUGE_PAGE_SIZE),
             .huge_pages DIRECT_MAP_BASE 0 ((4 * GB) / HUGE_PAGE_SIZE),
             .huge_pages HIGHER_HALF_BASE 0 ((2 * GB) / HUGE_PAGE_SIZE)] } ∧
    build_page_table ⟨0x100000, 0x200000, 0xFFFF800000100000, 0xFFFF800000100000, 64, true⟩ ≠
      some
        { levels := 4
          root_zeroed := true
          mappings :=
            [.huge_pages 0 0 ((4 * GB) / HUGE_PAGE_SIZE),
             .huge_pages DIRECT_MAP_BASE 0 ((4 * GB) / HUGE_PAGE_SIZE)] } := by
  constructor
  · rfl
  · decide

/-- C5 (amended): for every binary_info, build_page_table yields a 4-level
table exactly for 64-bit kernels; it identity-maps 0..4 GiB with huge
pages, maps DIRECT_MAP_BASE..+4 GiB to physical 0..4 GiB with huge pages,
and when kernel_range_is_direct_map is false additionally maps the kernel
range [virtual_base, virtual_base + (physical_ceiling - physical_base))
to [physical_base, physical_ceiling) at 4 KiB granularity; when
kernel_range_is_direct_map is true it instead huge-page-maps the first
2 GiB of physical at HIGHER_HALF_BASE. -/
theorem C5_page_table_mappings (bi : binary_info) :
    build_page_table bi =
      (if bi.bitness = 64 then
        some
          { levels := 4
            root_zeroed := true
            mappings :=
              [.huge_pages 0 0 ((4 * GB) / HUGE_PAGE_SIZE),
               .huge_pages DIRECT_MAP_BASE 0 ((4 * GB) / HUGE_PAGE_SIZE)] ++
              (if bi.kernel_range_is_direct_map then
                [.huge_pages HIGHER_HALF_BASE 0 ((2 * GB) / HUGE_PAGE_SIZE)]
              else
                [.standard_pages bi.virtual_base bi.physical_base
                  (CEILING_DIVIDE (bi.physical_ceiling - bi.physical_base) PAGE_SIZE)])
          }
      else
        none) := by
  by_cases h64 : bi.bitness = 64
  · cases hdm : bi.kernel_range_is_direct_map <;>
      simp [build_page_table, h64, hdm]
  · simp [build_page_table, h64]

/-! ## C6: higher-half pointer rebasing in ultra_protocol_load -/

/-- Modulus of the loader's 64-bit address arithmetic. -/
def U64_MOD : Nat := 2 ^ 64

/-- Kernel-facing values of ultra_protocol_load just before the jump: the
framebuffer physical address exported in the framebuffer attribute, the
stack pointer, the attribute array address, and the physical placement
(address, size) of every allocation made for the kernel. -/
structure handover_values where
  fb_physical_address : Nat
  stack_address : Nat
  attribute_array_address : Nat
  allocations : List (Nat × Nat)
deriving DecidableEq

/-- Translation of ultra.c line 519: a kernel is higher-half when its
entrypoint is at or above HIGHER_HALF_BASE. -/
def is_higher_half_kernel (entrypoint_address : Nat) : Bool :=
  decide (entrypoint_address ≥ HIGHER_HALF_BASE)

/-- Translation of ultra.c lines 546-547 and 558-561: when the kernel is
higher-half, the framebuffer physical address, the stack address and the
attribute array address are each increased by DIRECT_MAP_BASE (in 64-bit
arithmetic); the recorded allocations are untouched. -/
def kernel_visible_values (entrypoint_address : Nat) (s : handover_values) : handover_values :=
  if is_higher_half_kernel entrypoint_address then
    { s with
      fb_physical_address := (s.fb_physical_address + DIRECT_MAP_BASE) % U64_MOD
      stack_address := (s.stack_address + DIRECT_MAP_BASE) % U64_MOD
      attribute_array_address := (s.attribute_array_address + DIRECT_MAP_BASE) % U64_MOD }
  else
    s

/-- C6: the kernel-visible framebuffer address, stack address and
attribute-array address are each increased by DIRECT_MAP_BASE exactly
when the entrypoint is at or above HIGHER_HALF_BASE, and the underlying
allocations' physical placement is unchanged in either case. -/
theorem C6_higher_half_rebase (entrypoint_address : Nat) (s : handover_values) :
    (kernel_visible_values entrypoint_address s).allocations = s.allocations ∧
    (kernel_visible_values entrypoint_address s).fb_physical_address =
      (if HIGHER_HALF_BASE ≤ entrypoint_address then
        (s.fb_physical_address + DIRECT_MAP_BASE) % U64_MOD
      else
        s.fb_physical_address) ∧
    (kernel_visible_values entrypoint_address s).stack_address =
      (if HIGHER_HALF_BASE ≤ entrypoint_address then
        (s.stack_address + DIRECT_MAP_BASE) % U64_MOD
      else
        s.stack_address) ∧
    (kernel_visible_values entrypoint_address s).attribute_array_address =
      (if HIGHER_HALF_BASE ≤ entrypoint_address then
        (s.attribute_array_address + DIRECT_MAP_BASE) % U64_MOD
      else
        s.attribute_array_address) ∧
    (((kernel_visible_values entrypoint_address s).fb_physical_address =
        (s.fb_physical_address + DIRECT_MAP_BASE) % U64_MOD ∧
      (kernel_visible_values entrypoint_address s).stack_address =
        (s.stack_address + DIRECT_MAP_BASE) % U64_MOD ∧
      (kernel_visible_values entrypoint_address s).attribute_array_address =
        (s.attribute_array_address + DIRECT_MAP_BASE) % U64_MOD) ↔
      HIGHER_HALF_BASE ≤ entrypoint_address) := by
  by_cases hh : HIGHER_HALF_BASE ≤ entrypoint_address
  · simp [kernel_visible_values, is_higher_half_kernel, hh, ge_iff_le]
  · have hred : kernel_visible_values entrypoint_address s = s := by
      simp [kernel_visible_values, is_higher_half_kernel, ge_iff_le, hh]
    rw [hred, if_neg hh, if_neg hh, if_neg hh]
    refine ⟨rfl, rfl, rfl, rfl, ?_⟩
    simp only [hh, iff_false]
    rintro ⟨h1, _, _⟩
    revert h1
    unfold DIRECT_MAP_BASE U64_MOD at *
    omega

/-- Concrete instantiation of C6 at a higher-half entrypoint: the three
addresses are rebased and the allocation list is untouched. -/
theorem C6_higher_half_rebase_witness :
    (kernel_visible_values 0xFFFF800000001000
        ⟨0x100000, 0x200000, 0x300000, [(0x100000, 4096)]⟩).allocations = [(0x100000, 4096)] :=
  (C6_higher_half_rebase 0xFFFF800000001000 ⟨0x100000, 0x200000, 0x300000, [(0x100000, 4096)]⟩).1

/-! ## C3: operation ordering in ultra_protocol_load (ultra.c lines 507-573) -/

/-- Observable operations of ultra_protocol_load, in program order:
allocator calls, frees, the video mode switch, the memory-map snapshot
written by the final copy_map inside build_attribute_array, the
completion of build_attribute_array, the firmware handover call and the
two jump flavours. -/
inductive load_event where
  | alloc
  | free
  | video_mode_set
  | memory_map_snapshot
  | attribute_array_built
  | handover_call
  | jump32
  | jump64
deriving DecidableEq

/-- Events of build_attribute_array: each failed iteration of the
allocation loop allocates and frees; the committed iteration allocates,
then the records are written and the final copy_map takes the memory-map
snapshot, completing the function. -/
def build_attribute_array_events (loop_failures : Nat) : List load_event :=
  (List.replicate loop_failures ([.alloc, .free] : List load_event)).flatten ++
  [.alloc, .memory_map_snapshot, .attribute_array_built]

/-- Translation of the jump at the end of ultra_protocol_load:
kernel_handover32 for a 32-bit kernel, kernel_handover64 otherwise. -/
def jump_event (bitness32 : Bool) : load_event :=
  if bitness32 then .jump32 else .jump64

/-- Event trace of ultra_protocol_load in program order: the module-array
page allocation, the events of load_kernel, of the module loop and of
build_page_table (their internal structure is irrelevant here, so they
are parameters), the pick_stack allocation, the video mode switch, the
events of build_attribute_array, the handover call, and the jump. -/
def ultra_protocol_load_events (kernel_load_events module_loop_events page_table_events :
    List load_event) (loop_failures : Nat) (bitness32 : Bool) : List load_event :=
  [.alloc] ++
  kernel_load_events ++
  module_loop_events ++
  page_table_events ++
  [.alloc] ++
  [.video_mode_set] ++
  build_attribute_array_events loop_failures ++
  [.handover_call] ++
  [jump_event bitness32]

/-- C3: in ultra_protocol_load, build_attribute_array (ending with the
memory-map snapshot) completes strictly before the handover call, the
handover call strictly before the jump, and between the memory-map
snapshot and the jump no allocator or free operation occurs: the trace
ends exactly with snapshot, completion, handover, jump. -/
theorem C3_no_alloc_between_snapshot_and_jump (kernel_load_events module_loop_events
    page_table_events : List load_event) (loop_failures : Nat) (bitness32 : Bool) :
    ultra_protocol_load_events kernel_load_events module_loop_events page_table_events
        loop_failures bitness32 =
      ([.alloc] ++ kernel_load_events ++ module_loop_events ++ page_table_events ++
        [.alloc, .video_mode_set] ++
        (List.replicate loop_failures ([.alloc, .free] : List load_event)).flatten ++ [.alloc]) ++
      [.memory_map_snapshot, .attribute_array_built, .handover_call, jump_event bitness32] ∧
    (∀ e ∈ ([.attribute_array_built, .handover_call, jump_event bitness32] : List load_event),
      e ≠ .alloc ∧ e ≠ .free) := by
  constructor
  · simp [ultra_protocol_load_events, build_attribute_array_events]
  · cases bitness32 <;> decide

/-! ## C8: module loading and naming (ultra.c lines 41-87 and 523-534) -/

/-- Protocol module record; the C struct also has a fixed 64-byte name
buffer, modelled as a String. -/
structure ultra_module_info_attribute where
  type : Nat
  size_in_bytes : Nat
  name : String
  physical_address : Nat
  length : Nat
deriving DecidableEq

/-- Translation of ultra.c lines 60-61: when no name was configured,
snprintf writes the fallback name with the per-call module index into the
record; otherwise the buffer keeps its prior contents. -/
def module_load_snprintf_name (module_idx : Nat) (module_name : String)
    (prior_name : String) : String :=
  if module_name = "" then "unnamed_module" ++ toString module_idx else prior_name

/-- Translation of module_load's effect on the record: the snprintf of
lines 60-61 first, then the compound-literal assignment of lines 80-84,
which designates only header, physical_address and length, so every other
member, name included, is zero-filled. -/
def module_load_attribute (module_idx : Nat) (module_name : String)
    (module_data_address module_file_size : Nat) (prior : ultra_module_info_attribute) :
    ultra_module_info_attribute :=
  let attrs_after_snprintf : ultra_module_info_attribute :=
    { prior with name := module_load_snprintf_name module_idx module_name prior.name }
  { attrs_after_snprintf with
    type := ULTRA_ATTRIBUTE_MODULE_INFO
    size_in_bytes := sizeof_ultra_module_info_attribute
    physical_address := module_data_address
    length := module_file_size
    name := "" }

/-- Translation of the module loop of ultra_protocol_load (lines 523-534)
with module_load's static counter: the n-th loaded module (in config
order, counted from 1, named or not) gets index n.  Each input is the
configured name ("" when absent) with the loaded data address and file
size; the records land in the modules array in source order. -/
def ultra_load_modules_from (module_idx : Nat) :
    List (String × Nat × Nat) → List ultra_module_info_attribute
  | [] => []
  | m :: rest =>
    module_load_attribute module_idx m.1 m.2.1 m.2.2 ⟨0, 0, "", 0, 0⟩ ::
      ultra_load_modules_from (module_idx + 1) rest

/-- Module records produced by ultra_protocol_load for a fresh loader run
(the static counter starts at 0 and is pre-incremented). -/
def ultra_load_modules (modules : List (String × Nat × Nat)) :
    List ultra_module_info_attribute :=
  ultra_load_modules_from 1 modules

/-- Helper lemma: the record fields produced for any module list and any
starting index: names all empty, addresses and lengths in source order,
types all MODULE_INFO. -/
theorem ultra_load_modules_from_fields (module_idx : Nat)
    (modules : List (String × Nat × Nat)) :
    (ultra_load_modules_from module_idx modules).map (fun a => a.name) =
      List.replicate modules.length "" ∧
    (ultra_load_modules_from module_idx modules).map
        (fun a => (a.physical_address, a.length)) = modules.map (fun m => m.2) ∧
    (ultra_load_modules_from module_idx modules).map (fun a => a.type) =
      List.replicate modules.length ULTRA_ATTRIBUTE_MODULE_INFO := by
  induction modules generalizing module_idx with
  | nil => simp [ultra_load_modules_from]
  | cons m rest ih =>
    obtain ⟨h1, h2, h3⟩ := ih (module_idx + 1)
    simp [ultra_load_modules_from, module_load_attribute, h1, h2, h3,
      List.replicate_succ]

/-- Counterexample to C8 as stated: for the two-module config (one named
init, one unnamed), the records are in source order but both name fields
are empty; the claimed names init and unnamed_module1 do not appear. -/
theorem C8_counterexample :
    (ultra_load_modules [("init", 0x200000, 0x1000), ("", 0x300000, 0x2000)]).map
        (fun a => a.name) = ["", ""] ∧
    (ultra_load_modules [("init", 0x200000, 0x1000), ("", 0x300000, 0x2000)]).map
        (fun a => (a.physical_address, a.length)) = [(0x200000, 0x1000), (0x300000, 0x2000)] ∧
    (ultra_load_modules [("init", 0x200000, 0x1000), ("", 0x300000, 0x2000)]).map
        (fun a => a.name) ≠ ["init", "unnamed_module1"] := by
  refine ⟨rfl, rfl, ?_⟩
  decide

/-- C8 (amended): MODULE_INFO records appear in source order with the
loaded physical address and length of each module, but every record's
name is empty: the compound-literal assignment at the end of module_load
zero-fills the name member, discarding the snprintf fallback — which, had
it survived, would have numbered the unnamed second module
unnamed_module2, since the static index counts all modules. -/
theorem C8_module_records (modules : List (String × Nat × Nat)) :
    (ultra_load_modules modules).map (fun a => a.name) =
      List.replicate modules.length "" ∧
    (ultra_load_modules modules).map (fun a => (a.physical_address, a.length)) =
      modules.map (fun m => m.2) ∧
    (ultra_load_modules modules).map (fun a => a.type) =
      List.replicate modules.length ULTRA_ATTRIBUTE_MODULE_INFO ∧
    module_load_snprintf_name 2 "" "unnamed_module2's prior" = "unnamed_module2" := by
  obtain ⟨h1, h2, h3⟩ := ultra_load_modules_from_fields 1 modules
  exact ⟨h1, h2, h3, rfl⟩

/-! ## C9: pick_stack (ultra.c lines 460-503) -/

/-- Config values relevant to pick_stack: unsigned integers, strings and
objects (the latter carrying the offset under which their child keys are
stored). -/
inductive cfg_value where
  | unsigned (n : Nat)
  | string_value (s : String)
  | object (cfg_off : Nat)
deriving DecidableEq

/-- One key/value pair of the config store, tagged with the offset of the
scope that contains it. -/
structure cfg_entry where
  scope : Nat
  key : String
  value : cfg_value
deriving DecidableEq

/-- Unique lookup of a key within a scope, as the cfg_get_one_of macro
performs through _cfg_get_one_of. -/
def cfg_find (cfg : List cfg_entry) (scope : Nat) (key : String) : Option cfg_value :=
  (cfg.find? (fun e => e.scope == scope && e.key == key)).map (fun e => e.value)

/-- How the stack allocation is placed. -/
inductive stack_placement where
  | anywhere
  | fixed (address : Nat)
deriving DecidableEq

/-- Result of pick_stack: the placement of the critical allocation, the
byte size, and the page count. -/
structure pick_stack_result where
  placement : stack_placement
  size : Nat
  pages : Nat
deriving DecidableEq

/-- Translation of pick_stack.  Note the source passes le — the loadable
entry — and not the stack object value to both sub-key lookups (ultra.c
lines 473-474), so the sub-keys are resolved in the loadable entry's
scope.  Wrong-typed values are fatal (none); this part is modelled from
the spec, since _cfg_get_one_of's body is not under src/. -/
def pick_stack (cfg : List cfg_entry) (le_off : Nat) : Option pick_stack_result :=
  let stack_val := cfg_find cfg le_off "stack"
  let addr_size : Option (Nat × Nat) :=
    match stack_val with
    | some (.object _obj_off) =>
      let alloc_at_val := cfg_find cfg le_off "allocate-at"
      let size_val := cfg_find cfg le_off "size"
      let address : Option Nat :=
        match alloc_at_val with
        | some (.string_value s) => if s = "anywhere" then some 0 else none
        | some (.unsigned a) => some a
        | some (.object _) => none
        | none => some 0
      let size : Option Nat :=
        match size_val with
        | some (.string_value s) => if s = "auto" then some (16 * KB) else none
        | some (.unsigned n) => some n
        | some (.object _) => none
        | none => some (16 * KB)
      match address, size with
      | some a, some n => some (a, n)
      | _, _ => none
    | some (.string_value s) => if s = "auto" then some (0, 16 * KB) else none
    | some (.unsigned _) => none
    | none => some (0, 16 * KB)
  match addr_size with
  | none => none
  | some (a, n) =>
    some
      { placement := if a ≠ 0 then .fixed a else .anywhere
        size := n
        pages := CEILING_DIVIDE n PAGE_SIZE }

/-- Failing input for C9: a loadable entry (scope 1) whose stack value is
an object (scope 2) configuring allocate-at 0x10000 and size 0x8000. -/
def stack_object_config : List cfg_entry :=
  [⟨1, "stack", .object 2⟩,
   ⟨2, "allocate-at", .unsigned 0x10000⟩,
   ⟨2, "size", .unsigned 0x8000⟩]

/-- C9: evaluation at the failing input.  The allocate-at and size
sub-keys live in the stack object's scope (2), but pick_stack resolves
them in the loadable entry's scope (1), finds nothing, and falls back to
an anywhere placement of the default 16 KiB — not the configured critical
fixed allocation at 0x10000 of size 0x8000. -/
theorem C9_stack_subkeys_looked_up_in_entry_scope :
    pick_stack stack_object_config 1 =
      some { placement := .anywhere, size := 16 * KB, pages := 4 } ∧
    cfg_find stack_object_config 2 "allocate-at" = some (.unsigned 0x10000) ∧
    cfg_find stack_object_config 2 "size" = some (.unsigned 0x8000) ∧
    cfg_find stack_object_config 1 "allocate-at" = none ∧
    cfg_find stack_object_config 1 "size" = none ∧
    pick_stack stack_object_config 1 ≠
      some { placement := .fixed 0x10000, size := 0x8000, pages := 8 } := by
  refine ⟨rfl, rfl, rfl, rfl, rfl, ?_⟩
  decide

/-- C7: for every converted memory-map entry, the physical address and the
size in bytes are copied unchanged; the output type equals the input type
exactly when the input type is at most ULTRA_MEMORY_TYPE_NVS or at least
ULTRA_MEMORY_TYPE_LOADER_RECLAIMABLE, and is ULTRA_MEMORY_TYPE_RESERVED in
every other case. -/
theorem C7_memory_map_entry_convert (e : memory_map_entry) :
    (ultra_memory_map_entry_convert e).physical_address = e.physical_address ∧
    (ultra_memory_map_entry_convert e).size_in_bytes = e.size_in_bytes ∧
    (ultra_memory_map_entry_convert e).type =
      (if e.type ≤ ULTRA_MEMORY_TYPE_NVS ∨ ULTRA_MEMORY_TYPE_LOADER_RECLAIMABLE ≤ e.type then
        e.type
      else
        ULTRA_MEMORY_TYPE_RESERVED) ∧
    ((ultra_memory_map_entry_convert e).type = e.type ↔
      (e.type ≤ ULTRA_MEMORY_TYPE_NVS ∨ ULTRA_MEMORY_TYPE_LOADER_RECLAIMABLE ≤ e.type)) := by
  refine ⟨rfl, rfl, rfl, ?_⟩
  unfold ultra_memory_map_entry_convert
  simp only
  split
  · simp only [true_iff]
    omega
  next h =>
    simp only [ULTRA_MEMORY_TYPE_RESERVED, ULTRA_MEMORY_TYPE_NVS,
      ULTRA_MEMORY_TYPE_LOADER_RECLAIMABLE] at h ⊢
    omega

/-- Concrete instantiation of C7 at an entry with a loader-internal type
between NVS and LOADER_RECLAIMABLE, which is coerced to RESERVED. -/
theorem C7_memory_map_entry_convert_witness :
    (ultra_memory_map_entry_convert ⟨4096, 8192, 5⟩).physical_address = 4096 ∧
    (ultra_memory_map_entry_convert ⟨4096, 8192, 5⟩).size_in_bytes = 8192 ∧
    (ultra_memory_map_entry_convert ⟨4096, 8192, 5⟩).type =
      (if (5 : Nat) ≤ ULTRA_MEMORY_TYPE_NVS ∨ ULTRA_MEMORY_TYPE_LOADER_RECLAIMABLE ≤ 5 then
        5
      else
        ULTRA_MEMORY_TYPE_RESERVED) ∧
    ((ultra_memory_map_entry_convert ⟨4096, 8192, 5⟩).type = 5 ↔
      ((5 : Nat) ≤ ULTRA_MEMORY_TYPE_NVS ∨ ULTRA_MEMORY_TYPE_LOADER_RECLAIMABLE ≤ 5)) :=
  C7_memory_map_entry_convert ⟨4096, 8192, 5⟩

/-- C10: the global-scope lookup macros dispatch to swapped value types,
cfg_get_global_signed to _cfg_get_unsigned(cfg, 0, true, key, out) and
cfg_get_global_unsigned to _cfg_get_signed(cfg, 0, true, key, out), while
the scoped macros cfg_get_signed and cfg_get_unsigned dispatch to the
matching underscored lookup at the object's offset. -/
theorem C10_global_lookup_macros_swapped (off : Nat) (key : String) :
    cfg_get_global_signed key = underscore_cfg_get_unsigned 0 true key ∧
    cfg_get_global_unsigned key = underscore_cfg_get_signed 0 true key ∧
    cfg_get_signed off key = underscore_cfg_get_signed off true key ∧
    cfg_get_unsigned off key = underscore_cfg_get_unsigned off true key ∧
    (cfg_get_global_signed key).fn = .get_unsigned ∧
    (cfg_get_global_unsigned key).fn = .get_signed ∧
    (cfg_get_signed off key).fn = .get_signed ∧
    (cfg_get_unsigned off key).fn = .get_unsigned ∧
    (cfg_get_global_signed key).fn ≠ (cfg_get_signed off key).fn ∧
    (cfg_get_global_unsigned key).fn ≠ (cfg_get_unsigned off key).fn := by
  refine ⟨rfl, rfl, rfl, rfl, rfl, rfl, rfl, rfl, ?_, ?_⟩ <;>
    simp [cfg_get_global_signed, cfg_get_global_unsigned, cfg_get_signed, cfg_get_unsigned,
      underscore_cfg_get_unsigned, underscore_cfg_get_signed]

end Hyper
